import Mathlib

/-!
Verification development for the ESP8266 HomeKit Smart Lamp firmware.

Shallow embedding of the state-and-control core of two firmware variants:

* namespace `Rgb`  — the color variant `ESP8266_HomeKit_RGB_Strip.ino`
  (lamp state with hue/saturation/effect, JSON settings store, button
  finite-state machine, HomeKit setters, HTTP handlers);
* namespace `Pro`  — the monochrome "Pro" variant whose full source is
  listed in `RGB_STRIP_GUIDE.md` (brightness fade engine `fadeStep`,
  `setLampBrightness`, HTTP `/brightness` handler).

C `int` is modelled as `ℤ`, C `float` as `ℚ` (the claims treated here only
store and compare these values, no rounding arithmetic is involved),
`millis()` timestamps as `ℕ`.  Side effects are made explicit: LED frames
pushed to the strip are accumulated in a list, and every call to
`saveSettings` increments a write counter.
-/

namespace SmartLamp

/-- Firmware constant `DEBOUNCE_DELAY` (ms), line 94 of the sketch.  It is
defined in both variants but referenced nowhere else in the sources. -/
def DEBOUNCE_DELAY : ℕ := 50

/-- Firmware constant `LONG_PRESS_TIME` (ms). -/
def LONG_PRESS_TIME : ℕ := 3000

/-- Firmware constant `FACTORY_RESET_TIME` (ms). -/
def FACTORY_RESET_TIME : ℕ := 10000

/-- Arduino `constrain(x, lo, hi)`: `(x<lo)?lo:((x>hi)?hi:x)`. -/
def constrain (x lo hi : ℤ) : ℤ :=
  if x < lo then lo else if hi < x then hi else x

namespace Rgb

/-- The mutable lamp globals of `ESP8266_HomeKit_RGB_Strip.ino`:
`lampOn`, `lampBrightness`, `lampHue`, `lampSaturation`, `currentScene`,
`currentEffect` (lines 111-116). -/
structure LampState where
  lampOn : Bool
  lampBrightness : ℤ
  lampHue : ℚ
  lampSaturation : ℚ
  currentScene : ℤ
  currentEffect : ℤ
deriving DecidableEq

/-- Boot defaults of the globals (lines 111-116). -/
def bootState : LampState :=
  { lampOn := false, lampBrightness := 100, lampHue := 0, lampSaturation := 0,
    currentScene := 0, currentEffect := 0 }

/-- One frame pushed to the LED strip.  `hsv h s v` stands for the solid
fill `HSVtoRGB(h, s, v)` of `updateLED`; the float RGB conversion itself is
not needed by any claim and is kept symbolic. -/
inductive LedFrame where
  | black : LedFrame
  | white : LedFrame
  | hsv : ℚ → ℚ → ℤ → LedFrame
deriving DecidableEq

/-- The frame `updateLED` shows for a given state: the HSV solid fill when
`lampOn`, otherwise all black (lines 299-308). -/
def ledFrame (st : LampState) : LedFrame :=
  if st.lampOn then LedFrame.hsv st.lampHue st.lampSaturation st.lampBrightness
  else LedFrame.black

/-- Observable world: lamp state, the frames pushed so far, and how many
times `saveSettings` has written the settings file. -/
structure World where
  st : LampState
  frames : List LedFrame
  saves : ℕ
deriving DecidableEq

/-- World at boot: nothing shown, nothing saved. -/
def bootWorld : World := { st := bootState, frames := [], saves := 0 }

/-- `updateLED()` (lines 299-310): pushes the frame prescribed by the
current state and then unconditionally calls `saveSettings()`. -/
def updateLED (w : World) : World :=
  { w with frames := w.frames ++ [ledFrame w.st], saves := w.saves + 1 }

/-- `setColor(hue, saturation, brightness)` (lines 290-297): stores the
arguments unmodified, resets scene and effect, calls `updateLED`. -/
def setColor (w : World) (hue saturation : ℚ) (brightness : ℤ) : World :=
  updateLED { w with st :=
    { w.st with lampHue := hue, lampSaturation := saturation,
                lampBrightness := brightness, currentScene := 0, currentEffect := 0 } }

/-- HomeKit `lampOnSet` (lines 485-491). -/
def lampOnSet (w : World) (v : Bool) : World :=
  updateLED { w with st := { w.st with lampOn := v, currentEffect := 0 } }

/-- HomeKit `lampBrightnessSet` (lines 497-504): stores `value.int_value`
unmodified, resets scene and effect, calls `updateLED`. -/
def lampBrightnessSet (w : World) (v : ℤ) : World :=
  updateLED { w with st := { w.st with lampBrightness := v, currentScene := 0, currentEffect := 0 } }

/-- HomeKit `lampHueSet` (lines 510-517): stores `value.float_value`
unmodified. -/
def lampHueSet (w : World) (v : ℚ) : World :=
  updateLED { w with st := { w.st with lampHue := v, currentScene := 0, currentEffect := 0 } }

/-- HomeKit `lampSaturationSet` (lines 523-530): stores `value.float_value`
unmodified. -/
def lampSaturationSet (w : World) (v : ℚ) : World :=
  updateLED { w with st := { w.st with lampSaturation := v, currentScene := 0, currentEffect := 0 } }

/-- `setEffect(effect)` (lines 357-367): stores the effect id and sets
`lampOn = true` unconditionally; only for `effect == 0` it also calls
`updateLED`. -/
def setEffect (w : World) (effect : ℤ) : World :=
  let w1 := { w with st := { w.st with currentEffect := effect, lampOn := true } }
  if effect = 0 then updateLED w1 else w1

/-- One entry of the compiled-in scene table (hue, saturation, brightness);
the display-only `name` string is dropped. -/
structure ColorScene where
  hue : ℚ
  saturation : ℚ
  brightness : ℤ
deriving DecidableEq

/-- The scene table `scenes[]` (lines 142-152): Custom, Warm White, Cool
White, Energize, Concentrate, Reading, Relax, Sleep, Romance. -/
def scenes : List ColorScene :=
  [⟨0, 0, 100⟩, ⟨30, 20, 100⟩, ⟨200, 10, 100⟩, ⟨120, 100, 100⟩,
   ⟨200, 100, 80⟩, ⟨40, 30, 70⟩, ⟨260, 60, 40⟩, ⟨240, 100, 10⟩, ⟨340, 80, 30⟩]

/-- `applyScene(scene)` (lines 372-402): out-of-range ids return without
touching anything; a valid id sets `currentScene`, clears `currentEffect`,
copies the table entry into hue/saturation/brightness, turns the lamp on
and calls `updateLED`. -/
def applyScene (w : World) (scene : ℤ) : World :=
  if scene < 0 ∨ (scenes.length : ℤ) ≤ scene then w
  else
    let sc := scenes.getD scene.toNat ⟨0, 0, 100⟩
    updateLED { w with st :=
      { w.st with currentScene := scene, currentEffect := 0, lampHue := sc.hue,
                  lampSaturation := sc.saturation, lampBrightness := sc.brightness,
                  lampOn := true } }

/-- HTTP `/color` handler body (lines 819-847): `setColor(h, s, b)` followed
by `lampOn = true` (no further LED/save call before the notifications). -/
def handleColor (w : World) (h s : ℚ) (b : ℤ) : World :=
  let w1 := setColor w h s b
  { w1 with st := { w1.st with lampOn := true } }

/-- The three white/black blink pairs of `lampIdentify` (lines 470-477). -/
def identifyBlink : List LedFrame :=
  [LedFrame.white, LedFrame.black, LedFrame.white, LedFrame.black,
   LedFrame.white, LedFrame.black]

/-- HomeKit `lampIdentify` (lines 468-479): blinks white/black three times,
then calls `updateLED()` to restore the state-prescribed frame (which also
performs that function's unconditional `saveSettings()`). -/
def lampIdentify (w : World) : World :=
  updateLED { w with frames := w.frames ++ identifyBlink }

/-- A dragged slider delivered as successive HomeKit brightness sets: each
value goes through `lampBrightnessSet` (and hence `updateLED` → save). -/
def applySlider (w : World) (vs : List ℤ) : World :=
  vs.foldl lampBrightnessSet w

/-- The parsed `/settings.json` document: each key may be present or
absent; `doc[key] | default` of ArduinoJson is modelled by `Option.getD`. -/
structure SettingsDoc where
  lampOn : Option Bool
  lampBrightness : Option ℤ
  lampHue : Option ℚ
  lampSaturation : Option ℚ
  currentScene : Option ℤ
deriving DecidableEq

/-- `saveSettings()` (lines 205-219): serializes exactly the five keys
`on`, `brightness`, `hue`, `saturation`, `scene` from the globals. -/
def saveSettings (st : LampState) : SettingsDoc :=
  { lampOn := some st.lampOn, lampBrightness := some st.lampBrightness,
    lampHue := some st.lampHue, lampSaturation := some st.lampSaturation,
    currentScene := some st.currentScene }

/-- `loadSettings()` (lines 221-243) on a successfully parsed document:
each global takes the stored value if the key is present, else its
documented default (`false`, `100`, `0.0`, `0.0`, `0`); no range check of
any kind is applied.  `prev` is the global state before loading
(`currentEffect` is not part of the record and is left untouched). -/
def loadSettings (doc : SettingsDoc) (prev : LampState) : LampState :=
  { prev with
    lampOn := doc.lampOn.getD false
    lampBrightness := doc.lampBrightness.getD 100
    lampHue := doc.lampHue.getD 0
    lampSaturation := doc.lampSaturation.getD 0
    currentScene := doc.currentScene.getD 0 }

/-- Button FSM globals (lines 119-122): `buttonPressed`, `buttonPressTime`,
`longPressHandled`, `veryLongPressHandled`. -/
structure BtnState where
  buttonPressed : Bool
  buttonPressTime : ℕ
  longPressHandled : Bool
  veryLongPressHandled : Bool
deriving DecidableEq

/-- FSM state at boot. -/
def initBtn : BtnState :=
  { buttonPressed := false, buttonPressTime := 0,
    longPressHandled := false, veryLongPressHandled := false }

/-- The action fired by one `handleButton` poll: `shortPress` stands for the
toggle branch, `longPress` for the `cycleScene()` branch, `veryLongPress`
for the `factoryReset()` branch. -/
inductive ButtonEvent where
  | shortPress : ButtonEvent
  | longPress : ButtonEvent
  | veryLongPress : ButtonEvent
deriving DecidableEq

/-- One poll of `handleButton()` (lines 412-449) given the debounce-free raw
level `buttonState = (digitalRead(BUTTON_PIN) == LOW)` and the current
`millis()` value; returns the new FSM state and the events fired by this
poll. -/
def handleButton (s : BtnState) (buttonState : Bool) (now : ℕ) :
    BtnState × List ButtonEvent :=
  match buttonState, s.buttonPressed with
  | true, false =>
      ({ buttonPressed := true, buttonPressTime := now,
         longPressHandled := false, veryLongPressHandled := false }, [])
  | false, true =>
      let pressDuration := now - s.buttonPressTime
      let evs :=
        if pressDuration < LONG_PRESS_TIME ∧ s.longPressHandled = false ∧
            s.veryLongPressHandled = false then
          [ButtonEvent.shortPress]
        else []
      ({ s with buttonPressed := false }, evs)
  | true, true =>
      let pressDuration := now - s.buttonPressTime
      if FACTORY_RESET_TIME ≤ pressDuration ∧ s.veryLongPressHandled = false then
        ({ s with veryLongPressHandled := true }, [ButtonEvent.veryLongPress])
      else if LONG_PRESS_TIME ≤ pressDuration ∧ s.longPressHandled = false then
        ({ s with longPressHandled := true }, [ButtonEvent.longPress])
      else (s, [])
  | false, false => (s, [])

/-- Run `handleButton` over a list of `(millis, raw level)` samples in loop
order, collecting all fired events. -/
def runButton (s : BtnState) : List (ℕ × Bool) → List ButtonEvent
  | [] => []
  | sample :: rest =>
      let r := handleButton s sample.2 sample.1
      r.2 ++ runButton r.1 rest

/-- `cnt` consecutive held polls (level pressed) at times
`start, start+1, …, start+cnt-1`: the loop sampling once per millisecond
while the button stays down. -/
def heldRun : BtnState → ℕ → ℕ → BtnState × List ButtonEvent
  | s, _, 0 => (s, [])
  | s, start, cnt + 1 =>
      let r := handleButton s true start
      let r2 := heldRun r.1 (start + 1) cnt
      (r2.1, r.2 ++ r2.2)

/-- One full press-and-release cycle with held duration `tPress`, polled
once per millisecond: press edge seen at time 0, held polls at times
`1 … tPress`, release poll at time `tPress` (measured duration `tPress`). -/
def buttonCycle (tPress : ℕ) : List ButtonEvent :=
  let r0 := handleButton initBtn true 0
  let r1 := heldRun r0.1 1 tPress
  let r2 := handleButton r1.1 false tPress
  r0.2 ++ r1.2 ++ r2.2

end Rgb

namespace Pro

/-- Lamp globals of the Pro (guide) variant: `lampOn`, `lampBrightness`,
`currentScene` plus the fade-engine globals `currentPWM`,
`targetBrightness`, `isFading`, and a `saveSettings` write counter. -/
structure State where
  lampOn : Bool
  lampBrightness : ℤ
  currentScene : ℤ
  currentPWM : ℤ
  targetBrightness : ℤ
  isFading : Bool
  saves : ℕ
deriving DecidableEq

/-- The arithmetic core of one `fadeStep()` tick (guide lines 782-803):
advance `currentPWM` toward `targetBrightness` by
`max(1, |target-current|/10)`, snapping to the target when the step would
reach or cross it.  Both divisions in the source run on a positive
numerator, so C truncating division agrees with `ℤ` division here. -/
def fadeStepOnce (currentPWM targetBrightness : ℤ) : ℤ :=
  if currentPWM < targetBrightness then
    let c := currentPWM + max 1 ((targetBrightness - currentPWM) / 10)
    if targetBrightness ≤ c then targetBrightness else c
  else if targetBrightness < currentPWM then
    let c := currentPWM - max 1 ((currentPWM - targetBrightness) / 10)
    if c ≤ targetBrightness then targetBrightness else c
  else currentPWM

/-- `currentPWM` after `n` ticks of `fadeStep()` toward a fixed target. -/
def fadeIter : ℕ → ℤ → ℤ → ℤ
  | 0, c, _ => c
  | n + 1, c, t => fadeIter n (fadeStepOnce c t) t

/-- `setLampBrightness(brightness, smooth)` (guide lines 805-821):
constrains to 0..100, retargets the fade (smooth) or jumps the PWM
directly (instant). -/
def setLampBrightness (s : State) (brightness : ℤ) (smooth : Bool) : State :=
  let b := SmartLamp.constrain brightness 0 100
  let tgt := if s.lampOn then b else 0
  if smooth then
    { s with lampBrightness := b, targetBrightness := tgt, isFading := true }
  else
    { s with lampBrightness := b, targetBrightness := tgt, currentPWM := tgt,
             isFading := false }

/-- HTTP `/brightness` handler `handleBrightness()` (guide lines
1248-1268): `lampBrightness = constrain(value, 0, 100)`, `currentScene = 0`,
a smooth retarget when the lamp is on, then `saveSettings()`. -/
def handleBrightness (s : State) (value : ℤ) : State :=
  let s1 := { s with lampBrightness := SmartLamp.constrain value 0 100, currentScene := 0 }
  let s2 := if s1.lampOn then setLampBrightness s1 s1.lampBrightness true else s1
  { s2 with saves := s2.saves + 1 }

end Pro

end SmartLamp

namespace SmartLamp

theorem constrain_mem (x lo hi : ℤ) (h : lo ≤ hi) :
    lo ≤ constrain x lo hi ∧ constrain x lo hi ≤ hi := by
  unfold constrain
  split
  · omega
  · split <;> omega

theorem scenes_length : (Rgb.scenes.length : ℤ) = 9 := by decide

/-- C1 (amended): only the HTTP `/brightness` handler clamps — after
`handleBrightness(v)` the stored brightness lies in `[0,100]`.  The HomeKit
Brightness/Hue/Saturation setters and the `/color` handler store the
incoming value unchanged, so those external writes are not clamped to the
documented ranges. -/
theorem c1_clamping_amended (p : Pro.State) (v : ℤ) (w : Rgb.World) (b : ℤ) (hq q : ℚ) :
    (0 ≤ (Pro.handleBrightness p v).lampBrightness ∧
      (Pro.handleBrightness p v).lampBrightness ≤ 100) ∧
    (Rgb.lampBrightnessSet w b).st.lampBrightness = b ∧
    (Rgb.lampHueSet w hq).st.lampHue = hq ∧
    (Rgb.lampSaturationSet w q).st.lampSaturation = q ∧
    (Rgb.handleColor w hq q b).st.lampBrightness = b := by
  refine ⟨?_, rfl, rfl, rfl, rfl⟩
  have h1 := constrain_mem v 0 100 (by omega)
  have h2 := constrain_mem (constrain v 0 100) 0 100 (by omega)
  unfold Pro.handleBrightness Pro.setLampBrightness
  dsimp only
  split <;> simp only [if_pos rfl, if_true] <;> omega

/-- C1 counterexample: a HomeKit brightness set of 1000 leaves
`state.brightness = 1000`, outside `[0,100]`, so brightness is not clamped
after every external write. -/
theorem c1_counterexample :
    (Rgb.lampBrightnessSet Rgb.bootWorld 1000).st.lampBrightness = 1000 ∧
    ¬ ((1000 : ℤ) ≤ 100) := by decide

/-- C4: every `lampBrightnessSet` and every `setColor` resets
`currentScene` to 0 (custom), and `applyScene` with a valid id `0 < id < 9`
resets `currentEffect` to 0. -/
theorem c4_cross_field_rules (w : Rgb.World) (v : ℤ) (h s : ℚ) (b i : ℤ) :
    (Rgb.lampBrightnessSet w v).st.currentScene = 0 ∧
    (Rgb.setColor w h s b).st.currentScene = 0 ∧
    (Rgb.lampHueSet w h).st.currentScene = 0 ∧
    (Rgb.lampSaturationSet w s).st.currentScene = 0 ∧
    (0 < i → i < 9 → (Rgb.applyScene w i).st.currentEffect = 0) := by
  refine ⟨rfl, rfl, rfl, rfl, fun h1 h2 => ?_⟩
  unfold Rgb.applyScene
  rw [if_neg]
  · rfl
  · rw [scenes_length]
    omega

theorem c4_witness :
    (0 : ℤ) < 3 ∧ (3 : ℤ) < 9 ∧
    (Rgb.applyScene Rgb.bootWorld 3).st.currentEffect = 0 :=
  ⟨by decide, by decide,
   (c4_cross_field_rules Rgb.bootWorld 0 0 0 0 3).2.2.2.2 (by decide) (by decide)⟩

/-- C6 (amended): `lampIdentify` blinks white/black three times and then
restores exactly the frame prescribed by the current `LampState`, mutating
no state field — but the restore goes through `updateLED()`, which performs
one unconditional settings-store write, so identify is not persistence-free. -/
theorem c6_identify_amended (w : Rgb.World) :
    (Rgb.lampIdentify w).st = w.st ∧
    (Rgb.lampIdentify w).frames =
      w.frames ++ (Rgb.identifyBlink ++ [Rgb.ledFrame w.st]) ∧
    (Rgb.lampIdentify w).saves = w.saves + 1 := by
  refine ⟨rfl, ?_, rfl⟩
  simp [Rgb.lampIdentify, Rgb.updateLED]

/-- C6 counterexample: identify at boot performs one settings write, not
zero, so it does not leave the persistence layer untouched. -/
theorem c6_counterexample :
    (Rgb.lampIdentify Rgb.bootWorld).saves = 1 ∧ (1 : ℕ) ≠ 0 := by decide

/-- C7 (amended): persistence of brightness intents is not debounced — a
slider dragged through `N` successive values runs `lampBrightnessSet`, and
with it `updateLED()`'s unconditional `saveSettings()`, once per value:
exactly `N` store writes, one per intermediate value, never strictly
fewer. -/
theorem c7_saves_amended (w : Rgb.World) (vs : List ℤ) :
    (Rgb.applySlider w vs).saves = w.saves + vs.length := by
  induction vs generalizing w with
  | nil => rfl
  | cons a l ih =>
      show (Rgb.applySlider (Rgb.lampBrightnessSet w a) l).saves = w.saves + (l.length + 1)
      rw [ih]
      show (Rgb.lampBrightnessSet w a).saves + l.length = w.saves + (l.length + 1)
      unfold Rgb.lampBrightnessSet Rgb.updateLED
      dsimp only
      omega

/-- C7 counterexample: a slider dragged through 2 successive values causes
2 store writes, which is not strictly fewer than 2. -/
theorem c7_counterexample :
    (Rgb.applySlider Rgb.bootWorld [30, 60]).saves = 2 ∧ ¬ ((2 : ℕ) < 2) := by decide

/-- C8: saving any valid lamp state and loading it back reproduces every
persisted field (`on`, `brightness`, `hue`, `saturation`, `scene`)
exactly, whatever the in-memory state was before the load. -/
theorem c8_save_load_roundtrip (st prev : Rgb.LampState)
    (hb1 : 0 ≤ st.lampBrightness) (hb2 : st.lampBrightness ≤ 100)
    (hh1 : 0 ≤ st.lampHue) (hh2 : st.lampHue < 360)
    (hs1 : 0 ≤ st.lampSaturation) (hs2 : st.lampSaturation ≤ 100)
    (hc1 : 0 ≤ st.currentScene) (hc2 : st.currentScene < 9) :
    (Rgb.loadSettings (Rgb.saveSettings st) prev).lampOn = st.lampOn ∧
    (Rgb.loadSettings (Rgb.saveSettings st) prev).lampBrightness = st.lampBrightness ∧
    (Rgb.loadSettings (Rgb.saveSettings st) prev).lampHue = st.lampHue ∧
    (Rgb.loadSettings (Rgb.saveSettings st) prev).lampSaturation = st.lampSaturation ∧
    (Rgb.loadSettings (Rgb.saveSettings st) prev).currentScene = st.currentScene := by
  simp [Rgb.loadSettings, Rgb.saveSettings]

theorem c8_witness :
    0 ≤ (40 : ℤ) ∧ (40 : ℤ) ≤ 100 ∧ 0 ≤ (120 : ℚ) ∧ (120 : ℚ) < 360 ∧
    0 ≤ (50 : ℚ) ∧ (50 : ℚ) ≤ 100 ∧ 0 ≤ (2 : ℤ) ∧ (2 : ℤ) < 9 ∧
    ((Rgb.loadSettings (Rgb.saveSettings ⟨true, 40, 120, 50, 2, 0⟩)
        Rgb.bootState).lampOn = true ∧
      (Rgb.loadSettings (Rgb.saveSettings ⟨true, 40, 120, 50, 2, 0⟩)
        Rgb.bootState).lampBrightness = 40 ∧
      (Rgb.loadSettings (Rgb.saveSettings ⟨true, 40, 120, 50, 2, 0⟩)
        Rgb.bootState).lampHue = 120 ∧
      (Rgb.loadSettings (Rgb.saveSettings ⟨true, 40, 120, 50, 2, 0⟩)
        Rgb.bootState).lampSaturation = 50 ∧
      (Rgb.loadSettings (Rgb.saveSettings ⟨true, 40, 120, 50, 2, 0⟩)
        Rgb.bootState).currentScene = 2) :=
  ⟨by norm_num, by norm_num, by norm_num, by norm_num, by norm_num, by norm_num,
   by norm_num, by norm_num,
   c8_save_load_roundtrip ⟨true, 40, 120, 50, 2, 0⟩ Rgb.bootState
     (by norm_num) (by norm_num) (by norm_num) (by norm_num)
     (by norm_num) (by norm_num) (by norm_num) (by norm_num)⟩

/-- C9: `setEffect(id)` sets `lampOn = true` unconditionally — for every
id, including `id = 0` meant to stop effects, and regardless of whether the
lamp was off beforehand. -/
theorem c9_setEffect_forces_on (w : Rgb.World) (i : ℤ) :
    (Rgb.setEffect w i).st.lampOn = true := by
  unfold Rgb.setEffect
  split <;> rfl

/-- C10: `loadSettings` applies no range validation — every field present
in a successfully parsed record enters the lamp state exactly as stored,
and `currentEffect` is untouched. -/
theorem c10_load_no_validation (doc : Rgb.SettingsDoc) (prev : Rgb.LampState) :
    (∀ b, doc.lampOn = some b → (Rgb.loadSettings doc prev).lampOn = b) ∧
    (∀ v, doc.lampBrightness = some v →
      (Rgb.loadSettings doc prev).lampBrightness = v) ∧
    (∀ v, doc.lampHue = some v → (Rgb.loadSettings doc prev).lampHue = v) ∧
    (∀ v, doc.lampSaturation = some v →
      (Rgb.loadSettings doc prev).lampSaturation = v) ∧
    (∀ v, doc.currentScene = some v →
      (Rgb.loadSettings doc prev).currentScene = v) ∧
    (Rgb.loadSettings doc prev).currentEffect = prev.currentEffect := by
  refine ⟨?_, ?_, ?_, ?_, ?_, rfl⟩ <;> intro v hv <;> simp [Rgb.loadSettings, hv]

theorem c10_witness :
    (Rgb.loadSettings ⟨some true, some 1000, some 500, some 200, some 42⟩
      Rgb.bootState).lampBrightness = 1000 ∧
    (Rgb.loadSettings ⟨some true, some 1000, some 500, some 200, some 42⟩
      Rgb.bootState).lampHue = 500 ∧
    (Rgb.loadSettings ⟨some true, some 1000, some 500, some 200, some 42⟩
      Rgb.bootState).currentScene = 42 :=
  ⟨(c10_load_no_validation _ _).2.1 1000 rfl,
   (c10_load_no_validation _ _).2.2.1 500 rfl,
   (c10_load_no_validation _ _).2.2.2.2.1 42 rfl⟩

theorem fadeStepOnce_self (t : ℤ) : Pro.fadeStepOnce t t = t := by
  unfold Pro.fadeStepOnce
  simp

theorem fadeStepOnce_of_lt {c t : ℤ} (h : c < t) :
    c < Pro.fadeStepOnce c t ∧ Pro.fadeStepOnce c t ≤ t := by
  have h1 : 1 ≤ max 1 ((t - c) / 10) := le_max_left _ _
  have h2 : max 1 ((t - c) / 10) ≤ t - c := by
    have hd : (t - c) / 10 ≤ t - c := by omega
    rcases max_cases 1 ((t - c) / 10) with ⟨he, _⟩ | ⟨he, _⟩ <;> omega
  unfold Pro.fadeStepOnce
  rw [if_pos h]
  dsimp only
  split <;> omega

theorem fadeStepOnce_of_gt {c t : ℤ} (h : t < c) :
    t ≤ Pro.fadeStepOnce c t ∧ Pro.fadeStepOnce c t < c := by
  have h1 : 1 ≤ max 1 ((c - t) / 10) := le_max_left _ _
  have h2 : max 1 ((c - t) / 10) ≤ c - t := by
    have hd : (c - t) / 10 ≤ c - t := by omega
    rcases max_cases 1 ((c - t) / 10) with ⟨he, _⟩ | ⟨he, _⟩ <;> omega
  unfold Pro.fadeStepOnce
  rw [if_neg (by omega), if_pos h]
  dsimp only
  split <;> omega

theorem fadeStep_dist {c t : ℤ} (h : c ≠ t) :
    (t - Pro.fadeStepOnce c t).natAbs < (t - c).natAbs := by
  rcases lt_or_gt_of_ne h with hlt | hgt
  · have := fadeStepOnce_of_lt hlt
    omega
  · have := fadeStepOnce_of_gt hgt
    omega

theorem fadeIter_fixed (n : ℕ) (t : ℤ) : Pro.fadeIter n t t = t := by
  induction n with
  | zero => rfl
  | succ n ih =>
      show Pro.fadeIter n (Pro.fadeStepOnce t t) t = t
      rw [fadeStepOnce_self]
      exact ih

theorem fadeIter_converges :
    ∀ (n : ℕ) (c t : ℤ), (t - c).natAbs ≤ n → Pro.fadeIter n c t = t := by
  intro n
  induction n with
  | zero =>
      intro c t h
      have hct : c = t := by omega
      rw [hct]
      rfl
  | succ n ih =>
      intro c t h
      by_cases hc : c = t
      · rw [hc]
        exact fadeIter_fixed _ _
      · show Pro.fadeIter n (Pro.fadeStepOnce c t) t = t
        refine ih _ _ ?_
        have := fadeStep_dist hc
        omega

theorem fadeStepOnce_between {c t x : ℤ} (h1 : min c t ≤ x) (h2 : x ≤ max c t) :
    min c t ≤ Pro.fadeStepOnce x t ∧ Pro.fadeStepOnce x t ≤ max c t := by
  have hmin1 : min c t ≤ t := min_le_right _ _
  have hmax1 : t ≤ max c t := le_max_right _ _
  rcases lt_trichotomy x t with hx | hx | hx
  · have := fadeStepOnce_of_lt hx
    omega
  · rw [hx, fadeStepOnce_self]
    omega
  · have := fadeStepOnce_of_gt hx
    omega

theorem fadeIter_between (c t : ℤ) :
    ∀ (n : ℕ) (x : ℤ), min c t ≤ x → x ≤ max c t →
      min c t ≤ Pro.fadeIter n x t ∧ Pro.fadeIter n x t ≤ max c t := by
  intro n
  induction n with
  | zero => intro x h1 h2; exact ⟨h1, h2⟩
  | succ n ih =>
      intro x h1 h2
      have hs := fadeStepOnce_between h1 h2
      exact ih _ hs.1 hs.2

/-- C2: the fade engine converges without overshoot.  From any starting
`currentPWM` and any target in `[0,100]`, iterating `fadeStep`'s
advance-by-`max(1, |target-current|/10)` rule reaches the target after at
most `|target-current|` ticks, and after every tick the value stays inside
`[min(start,target), max(start,target)]`. -/
theorem c2_fade_convergence (c t : ℤ) (h0 : 0 ≤ t) (h1 : t ≤ 100) :
    Pro.fadeIter (t - c).natAbs c t = t ∧
    ∀ n : ℕ, min c t ≤ Pro.fadeIter n c t ∧ Pro.fadeIter n c t ≤ max c t := by
  refine ⟨fadeIter_converges _ _ _ le_rfl, fun n => ?_⟩
  exact fadeIter_between c t n c (min_le_left _ _) (le_max_left _ _)

theorem c2_witness :
    (0 : ℤ) ≤ 100 ∧ (100 : ℤ) ≤ 100 ∧
    (Pro.fadeIter ((100 : ℤ) - 0).natAbs 0 100 = 100 ∧
      ∀ n : ℕ, min (0 : ℤ) 100 ≤ Pro.fadeIter n 0 100 ∧
        Pro.fadeIter n 0 100 ≤ max (0 : ℤ) 100) :=
  ⟨by norm_num, by norm_num, c2_fade_convergence 0 100 (by norm_num) (by norm_num)⟩


theorem hb_press_edge (now : ℕ) :
    Rgb.handleButton Rgb.initBtn true now = (⟨true, now, false, false⟩, []) := rfl

theorem hb_held_ff_quiet {m : ℕ} (h : m < LONG_PRESS_TIME) :
    Rgb.handleButton ⟨true, 0, false, false⟩ true m = (⟨true, 0, false, false⟩, []) := by
  have hL : LONG_PRESS_TIME = 3000 := rfl
  have hF : FACTORY_RESET_TIME = 10000 := rfl
  unfold Rgb.handleButton
  dsimp only
  rw [if_neg (by rw [hF]; omega), if_neg (by rw [hL]; omega)]

theorem hb_held_ff_long {m : ℕ} (h1 : LONG_PRESS_TIME ≤ m) (h2 : m < FACTORY_RESET_TIME) :
    Rgb.handleButton ⟨true, 0, false, false⟩ true m =
      (⟨true, 0, true, false⟩, [Rgb.ButtonEvent.longPress]) := by
  have hF : FACTORY_RESET_TIME = 10000 := rfl
  unfold Rgb.handleButton
  dsimp only
  rw [if_neg (by rw [hF] at h2 ⊢; omega), if_pos ⟨by omega, rfl⟩]

theorem hb_held_tf_quiet {m : ℕ} (h : m < FACTORY_RESET_TIME) :
    Rgb.handleButton ⟨true, 0, true, false⟩ true m = (⟨true, 0, true, false⟩, []) := by
  have hF : FACTORY_RESET_TIME = 10000 := rfl
  unfold Rgb.handleButton
  dsimp only
  rw [if_neg (by rw [hF] at h ⊢; omega), if_neg (by simp)]

theorem hb_held_tf_veryLong {m : ℕ} (h : FACTORY_RESET_TIME ≤ m) :
    Rgb.handleButton ⟨true, 0, true, false⟩ true m =
      (⟨true, 0, true, true⟩, [Rgb.ButtonEvent.veryLongPress]) := by
  unfold Rgb.handleButton
  dsimp only
  rw [if_pos ⟨by omega, rfl⟩]

theorem hb_held_tt_quiet (m : ℕ) :
    Rgb.handleButton ⟨true, 0, true, true⟩ true m = (⟨true, 0, true, true⟩, []) := by
  unfold Rgb.handleButton
  dsimp only
  rw [if_neg (by simp), if_neg (by simp)]

theorem hb_release_short {t : ℕ} (h : t < LONG_PRESS_TIME) :
    Rgb.handleButton ⟨true, 0, false, false⟩ false t =
      (⟨false, 0, false, false⟩, [Rgb.ButtonEvent.shortPress]) := by
  unfold Rgb.handleButton
  dsimp only
  rw [if_pos ⟨by omega, rfl, rfl⟩]

theorem hb_release_tf_quiet (t : ℕ) :
    Rgb.handleButton ⟨true, 0, true, false⟩ false t = (⟨false, 0, true, false⟩, []) := by
  unfold Rgb.handleButton
  dsimp only
  rw [if_neg (by simp)]

theorem hb_release_tt_quiet (t : ℕ) :
    Rgb.handleButton ⟨true, 0, true, true⟩ false t = (⟨false, 0, true, true⟩, []) := by
  unfold Rgb.handleButton
  dsimp only
  rw [if_neg (by simp)]

theorem heldRun_ff_quiet :
    ∀ (cnt start : ℕ), start + cnt ≤ LONG_PRESS_TIME →
      Rgb.heldRun ⟨true, 0, false, false⟩ start cnt = (⟨true, 0, false, false⟩, []) := by
  intro cnt
  induction cnt with
  | zero => intro start h; rfl
  | succ n ih =>
      intro start h
      show (let r := Rgb.handleButton ⟨true, 0, false, false⟩ true start
            let r2 := Rgb.heldRun r.1 (start + 1) n
            (r2.1, r.2 ++ r2.2)) = _
      rw [hb_held_ff_quiet (by omega)]
      dsimp only
      rw [ih (start + 1) (by omega)]
      rfl

theorem heldRun_tf_quiet :
    ∀ (cnt start : ℕ), start + cnt ≤ FACTORY_RESET_TIME →
      Rgb.heldRun ⟨true, 0, true, false⟩ start cnt = (⟨true, 0, true, false⟩, []) := by
  intro cnt
  induction cnt with
  | zero => intro start h; rfl
  | succ n ih =>
      intro start h
      show (let r := Rgb.handleButton ⟨true, 0, true, false⟩ true start
            let r2 := Rgb.heldRun r.1 (start + 1) n
            (r2.1, r.2 ++ r2.2)) = _
      rw [hb_held_tf_quiet (by omega)]
      dsimp only
      rw [ih (start + 1) (by omega)]
      rfl

theorem heldRun_tt_quiet :
    ∀ (cnt start : ℕ),
      Rgb.heldRun ⟨true, 0, true, true⟩ start cnt = (⟨true, 0, true, true⟩, []) := by
  intro cnt
  induction cnt with
  | zero => intro start; rfl
  | succ n ih =>
      intro start
      show (let r := Rgb.handleButton ⟨true, 0, true, true⟩ true start
            let r2 := Rgb.heldRun r.1 (start + 1) n
            (r2.1, r.2 ++ r2.2)) = _
      rw [hb_held_tt_quiet]
      dsimp only
      rw [ih (start + 1)]
      rfl

theorem heldRun_add :
    ∀ (a b : ℕ) (s : Rgb.BtnState) (start : ℕ),
      Rgb.heldRun s start (a + b) =
        ((Rgb.heldRun (Rgb.heldRun s start a).1 (start + a) b).1,
         (Rgb.heldRun s start a).2 ++
           (Rgb.heldRun (Rgb.heldRun s start a).1 (start + a) b).2) := by
  intro a
  induction a with
  | zero => intro b s start; simp [Rgb.heldRun]
  | succ n ih =>
      intro b s start
      have hn : n + 1 + b = (n + b) + 1 := by omega
      have hs : start + 1 + n = start + (n + 1) := by omega
      rw [hn]
      simp only [Rgb.heldRun]
      rw [ih b _ (start + 1), hs]
      simp [List.append_assoc]

theorem heldRun_one (s : Rgb.BtnState) (start : ℕ) :
    Rgb.heldRun s start 1 =
      ((Rgb.handleButton s true start).1, (Rgb.handleButton s true start).2) := by
  show (let r := Rgb.handleButton s true start
        let r2 := Rgb.heldRun r.1 (start + 1) 0
        (r2.1, r.2 ++ r2.2)) = _
  dsimp only [Rgb.heldRun]
  rw [List.append_nil]


theorem buttonCycle_lt_long {t : ℕ} (h : t < LONG_PRESS_TIME) :
    Rgb.buttonCycle t = [Rgb.ButtonEvent.shortPress] := by
  unfold Rgb.buttonCycle
  rw [hb_press_edge]
  dsimp only
  rw [heldRun_ff_quiet t 1 (by omega)]
  dsimp only
  rw [hb_release_short h]
  rfl

theorem buttonCycle_long_case {t : ℕ}
    (h1 : LONG_PRESS_TIME ≤ t) (h2 : t < FACTORY_RESET_TIME) :
    Rgb.buttonCycle t = [Rgb.ButtonEvent.longPress] := by
  have hL : LONG_PRESS_TIME = 3000 := rfl
  have hF : FACTORY_RESET_TIME = 10000 := rfl
  unfold Rgb.buttonCycle
  rw [hb_press_edge]
  dsimp only
  have hA := heldRun_add (LONG_PRESS_TIME - 1) (1 + (t - LONG_PRESS_TIME))
      (⟨true, 0, false, false⟩ : Rgb.BtnState) 1
  rw [(by omega : LONG_PRESS_TIME - 1 + (1 + (t - LONG_PRESS_TIME)) = t)] at hA
  rw [heldRun_ff_quiet (LONG_PRESS_TIME - 1) 1 (by omega)] at hA
  dsimp only at hA
  rw [(by omega : 1 + (LONG_PRESS_TIME - 1) = LONG_PRESS_TIME)] at hA
  have hB := heldRun_add 1 (t - LONG_PRESS_TIME)
      (⟨true, 0, false, false⟩ : Rgb.BtnState) LONG_PRESS_TIME
  rw [heldRun_one, hb_held_ff_long (le_refl _) (by omega)] at hB
  dsimp only at hB
  rw [heldRun_tf_quiet (t - LONG_PRESS_TIME) (LONG_PRESS_TIME + 1) (by omega)] at hB
  dsimp only at hB
  rw [hB] at hA
  rw [hA]
  dsimp only
  rw [hb_release_tf_quiet]
  simp

theorem buttonCycle_very_long_case {t : ℕ} (h : FACTORY_RESET_TIME ≤ t) :
    Rgb.buttonCycle t = [Rgb.ButtonEvent.longPress, Rgb.ButtonEvent.veryLongPress] := by
  have hL : LONG_PRESS_TIME = 3000 := rfl
  have hF : FACTORY_RESET_TIME = 10000 := rfl
  unfold Rgb.buttonCycle
  rw [hb_press_edge]
  dsimp only
  have hA := heldRun_add (LONG_PRESS_TIME - 1) (1 + (t - LONG_PRESS_TIME))
      (⟨true, 0, false, false⟩ : Rgb.BtnState) 1
  rw [(by omega : LONG_PRESS_TIME - 1 + (1 + (t - LONG_PRESS_TIME)) = t)] at hA
  rw [heldRun_ff_quiet (LONG_PRESS_TIME - 1) 1 (by omega)] at hA
  dsimp only at hA
  rw [(by omega : 1 + (LONG_PRESS_TIME - 1) = LONG_PRESS_TIME)] at hA
  have hC := heldRun_add (FACTORY_RESET_TIME - LONG_PRESS_TIME - 1)
      (1 + (t - FACTORY_RESET_TIME))
      (⟨true, 0, true, false⟩ : Rgb.BtnState) (LONG_PRESS_TIME + 1)
  rw [(by omega : FACTORY_RESET_TIME - LONG_PRESS_TIME - 1 +
        (1 + (t - FACTORY_RESET_TIME)) = t - LONG_PRESS_TIME)] at hC
  rw [heldRun_tf_quiet (FACTORY_RESET_TIME - LONG_PRESS_TIME - 1)
        (LONG_PRESS_TIME + 1) (by omega)] at hC
  dsimp only at hC
  rw [(by omega : LONG_PRESS_TIME + 1 + (FACTORY_RESET_TIME - LONG_PRESS_TIME - 1) =
        FACTORY_RESET_TIME)] at hC
  have hD := heldRun_add 1 (t - FACTORY_RESET_TIME)
      (⟨true, 0, true, false⟩ : Rgb.BtnState) FACTORY_RESET_TIME
  rw [heldRun_one, hb_held_tf_veryLong (le_refl _)] at hD
  dsimp only at hD
  rw [heldRun_tt_quiet (t - FACTORY_RESET_TIME) (FACTORY_RESET_TIME + 1)] at hD
  dsimp only at hD
  rw [hD] at hC
  have hB := heldRun_add 1 (t - LONG_PRESS_TIME)
      (⟨true, 0, false, false⟩ : Rgb.BtnState) LONG_PRESS_TIME
  rw [heldRun_one, hb_held_ff_long (le_refl _) (by omega)] at hB
  dsimp only at hB
  rw [hC] at hB
  dsimp only at hB
  rw [hB] at hA
  rw [hA]
  dsimp only
  rw [hb_release_tt_quiet]
  simp

/-- C3 (amended): with the loop polling every millisecond, a press cycle of
held duration `t` emits exactly one `ShortPress` when `t < longThreshold`,
and exactly one `LongPress` and nothing else when
`longThreshold ≤ t < veryLongThreshold`.  When `t ≥ veryLongThreshold`,
however, the cycle emits exactly one `VeryLongPress` *and* the one
`LongPress` that already fired when the hold crossed `longThreshold` —
not "no other event for that cycle". -/
theorem c3_button_events_amended (t : ℕ) :
    (t < LONG_PRESS_TIME → Rgb.buttonCycle t = [Rgb.ButtonEvent.shortPress]) ∧
    (LONG_PRESS_TIME ≤ t → t < FACTORY_RESET_TIME →
      Rgb.buttonCycle t = [Rgb.ButtonEvent.longPress]) ∧
    (FACTORY_RESET_TIME ≤ t →
      Rgb.buttonCycle t =
        [Rgb.ButtonEvent.longPress, Rgb.ButtonEvent.veryLongPress]) :=
  ⟨fun h => buttonCycle_lt_long h,
   fun h1 h2 => buttonCycle_long_case h1 h2,
   fun h => buttonCycle_very_long_case h⟩

theorem c3_witness :
    (100 < LONG_PRESS_TIME ∧ Rgb.buttonCycle 100 = [Rgb.ButtonEvent.shortPress]) ∧
    (FACTORY_RESET_TIME ≤ 10000 ∧
      Rgb.buttonCycle 10500 =
        [Rgb.ButtonEvent.longPress, Rgb.ButtonEvent.veryLongPress]) :=
  ⟨⟨by decide, (c3_button_events_amended 100).1 (by decide)⟩,
   ⟨by decide, (c3_button_events_amended 10500).2.2 (by decide)⟩⟩

/-- C3 counterexample: a hold of exactly the very-long threshold
(10000 ms) emits a `LongPress` (fired at 3000 ms while held) in addition to
the `VeryLongPress`, refuting "exactly one VeryLongPress and no other event
for that cycle". -/
theorem c3_counterexample :
    Rgb.buttonCycle 10000 =
      [Rgb.ButtonEvent.longPress, Rgb.ButtonEvent.veryLongPress] ∧
    Rgb.buttonCycle 10000 ≠ [Rgb.ButtonEvent.veryLongPress] := by
  have h := @buttonCycle_very_long_case 10000 (by decide)
  refine ⟨h, ?_⟩
  rw [h]
  simp

/-- C5 (amended): the button input is *not* debounced: `DEBOUNCE_DELAY`
(50 ms) is defined but never used, and `handleButton` trusts the raw level
immediately.  A raw glitch of any positive length below the debounce window
produces a press edge at once and, on its release poll, a `ShortPress`
event. -/
theorem c5_no_debounce_amended (t : ℕ) (h1 : 0 < t) (h2 : t < DEBOUNCE_DELAY) :
    (Rgb.handleButton Rgb.initBtn true 0).1.buttonPressed = true ∧
    Rgb.runButton Rgb.initBtn [(0, true), (t, false)] = [Rgb.ButtonEvent.shortPress] := by
  have hD : DEBOUNCE_DELAY = 50 := rfl
  have hL : LONG_PRESS_TIME = 3000 := rfl
  refine ⟨rfl, ?_⟩
  show (Rgb.handleButton Rgb.initBtn true 0).2 ++
      ((Rgb.handleButton (Rgb.handleButton Rgb.initBtn true 0).1 false t).2 ++ []) = _
  rw [hb_press_edge]
  dsimp only
  rw [hb_release_short (by omega)]
  rfl

theorem c5_witness :
    0 < 10 ∧ 10 < DEBOUNCE_DELAY ∧
    ((Rgb.handleButton Rgb.initBtn true 0).1.buttonPressed = true ∧
      Rgb.runButton Rgb.initBtn [(0, true), (10, false)] =
        [Rgb.ButtonEvent.shortPress]) :=
  ⟨by decide, by decide, c5_no_debounce_amended 10 (by decide) (by decide)⟩

/-- C5 counterexample: a 10 ms glitch — far shorter than the 50 ms debounce
window — is trusted immediately and produces a `ShortPress`, refuting "a
glitch shorter than the debounce window produces no press edge and no
ButtonEvent". -/
theorem c5_counterexample :
    Rgb.runButton Rgb.initBtn [(0, true), (10, false)] = [Rgb.ButtonEvent.shortPress] ∧
    Rgb.runButton Rgb.initBtn [(0, true), (10, false)] ≠ ([] : List Rgb.ButtonEvent) := by
  decide

end SmartLamp
